import Mathlib

/-!
Shallow embedding of the account-settings module (`src/routes/account.js`)
of the snapchat client library, together with proofs of the specification
claims about it.

The module's collaborators (`../lib/constants`, `../lib/string-utils`,
`../models/blob`, the transport `client.post`) are not part of the source
tree; where a claim depends on them they are modelled from the spec, as
marked in the doc comments below.
-/

namespace Snapchat

/-- Model of a JavaScript/JSON value, used for parsed response bodies and
for loosely-typed operation inputs (the source is JavaScript, so inputs
subject to truthiness coercion such as `!!searchable` or `enableSound ?`
are modelled as arbitrary JS values). Numbers are modelled as integers:
no claim involves non-integral numbers. -/
inductive Json where
  | null
  | bool (b : Bool)
  | num (n : Int)
  | str (s : String)
  | arr (xs : List Json)
  | obj (fields : List (String × Json))
deriving Repr

/-- JavaScript truthiness of a value: `null`, `false`, `0` and `""` are
falsy, everything else (any object or array in particular) is truthy. -/
def Json.truthy : Json → Bool
  | .null => false
  | .bool b => b
  | .num n => n != 0
  | .str s => s != ""
  | .arr _ => true
  | .obj _ => true

/-- JavaScript property access `value[key]`: a field lookup on objects
(`undefined`, i.e. `none`, when absent), and `undefined` on every
non-object value (no claim touches built-in properties like `length`). -/
def Json.lookupField : Json → String → Option Json
  | .obj fields, key => fields.lookup key
  | _, _ => none

/-- Truthiness of the result of `StringUtils.tryParseJSON`: a missing
result (parse failure) is falsy, otherwise the parsed value's own
truthiness applies. -/
def jsTruthyOpt : Option Json → Bool
  | some j => j.truthy
  | none => false

/-- Value of a single outgoing request parameter. -/
inductive PVal where
  | str (s : String)
  | int (n : Int)
  | bool (b : Bool)
  | obj (fields : List (String × PVal))
deriving Repr

/-- One transport request: the endpoint path identifier and the ordered
parameter mapping handed to `client.post`. -/
structure PostCall where
  endpoint : String
  params : List (String × PVal)
deriving Repr

/-- JavaScript `x | 0` (ToInt32): wrap into the signed 32-bit range. -/
def toInt32 (n : Int) : Int :=
  (n + 2147483648) % 4294967296 - 2147483648

/-- Modelled from the spec: the locally cached session state
(`client.currentSession`) read and selectively written by this module —
the username, the best-friends cache, the 8 named boolean feature flags
and the QR-image path. `bestFriendUsernames` is whatever JS value was
last assigned (`none` models `undefined`, its state when the server
response lacked the field). -/
structure Session where
  username : String
  bestFriendUsernames : Option Json
  enableFrontFacingFlash : Bool
  enableReplaySnaps : Bool
  enableSmartFilters : Bool
  enableVisualFilters : Bool
  enablePowerSaveMode : Bool
  enableSpecialText : Bool
  enableSwipeCashMode : Bool
  enableTravelMode : Bool
  QRPath : String
deriving Repr

/-- Modelled from the spec: endpoint path identifiers from
`constants.endpoints` (`src/lib/constants` is not under `src/`); the
spec's external-interface table fixes the logical path identifiers. -/
def epSetBestsCount : String := "account.setBestsCount"

/-- Modelled from the spec: the `account.settings` path identifier. -/
def epSettings : String := "account.settings"

/-- Modelled from the spec: the `update.featureSettings` path identifier. -/
def epFeatureSettings : String := "update.featureSettings"

/-- Modelled from the spec: the `update.user` path identifier. -/
def epUpdateUser : String := "update.user"

/-- Modelled from the spec: the `account.snaptag` path identifier. -/
def epSnaptag : String := "account.snaptag"

/-- Modelled from the spec: the `account.avatar.get` path identifier. -/
def epAvatarGet : String := "account.avatar.get"

/-- Modelled from the spec: wire name of the front-facing-flash flag in
`constants.featureSettings`; the spec fixes only that the 8 recognized
names are distinct. -/
def fsFrontFacingFlash : String := "front_facing_flash"

/-- Modelled from the spec: wire name of the replay-snaps flag. -/
def fsReplaySnaps : String := "replay_snaps"

/-- Modelled from the spec: wire name of the smart-filters flag. -/
def fsSmartFilters : String := "smart_filters"

/-- Modelled from the spec: wire name of the visual-filters flag. -/
def fsVisualFilters : String := "visual_filters"

/-- Modelled from the spec: wire name of the power-save-mode flag. -/
def fsPowerSaveMode : String := "power_save_mode"

/-- Modelled from the spec: wire name of the special-text flag. -/
def fsSpecialText : String := "special_text"

/-- Modelled from the spec: wire name of the swipe-cash-mode flag. -/
def fsSwipeCashMode : String := "swipe_cash_mode"

/-- Modelled from the spec: wire name of the travel-mode flag. -/
def fsTravelMode : String := "travel_mode"

/-- The closed list of the 8 recognized feature-flag names, in the order
the source builds the outgoing `features` object. -/
def featureNames : List String :=
  [fsFrontFacingFlash, fsReplaySnaps, fsSmartFilters, fsVisualFilters,
   fsPowerSaveMode, fsSpecialText, fsSwipeCashMode, fsTravelMode]

/-- The session's cached value for a recognized feature-flag name. -/
def sessionFlag (s : Session) (name : String) : Bool :=
  if name = fsFrontFacingFlash then s.enableFrontFacingFlash
  else if name = fsReplaySnaps then s.enableReplaySnaps
  else if name = fsSmartFilters then s.enableSmartFilters
  else if name = fsVisualFilters then s.enableVisualFilters
  else if name = fsPowerSaveMode then s.enablePowerSaveMode
  else if name = fsSpecialText then s.enableSpecialText
  else if name = fsSwipeCashMode then s.enableSwipeCashMode
  else if name = fsTravelMode then s.enableTravelMode
  else false

/-- JavaScript `settings[name] || cached` on boolean operands: an absent
key (`undefined`) yields the cached value, a present `false` also falls
through to the cached value, a present `true` wins. -/
def jsOr : Option Bool → Bool → Bool
  | some b, c => b || c
  | none, c => c

/-- Hexadecimal digit for the `\u00XX` JSON escapes. -/
def hexDigit (n : Nat) : Char :=
  if n < 10 then Char.ofNat (48 + n) else Char.ofNat (87 + n)

/-- JSON escaping of one character, as `JSON.stringify` performs it. -/
def jsEscapeChar (c : Char) : String :=
  if c = '"' then "\\\""
  else if c = '\\' then "\\\\"
  else if c = '\x08' then "\\b"
  else if c = '\x09' then "\\t"
  else if c = '\x0a' then "\\n"
  else if c = '\x0c' then "\\f"
  else if c = '\x0d' then "\\r"
  else if c.toNat < 32 then
    "\\u00" ++ String.mk [hexDigit (c.toNat / 16), hexDigit (c.toNat % 16)]
  else String.mk [c]

/-- `JSON.stringify` of a string: quoted and escaped. -/
def jsonQuote (s : String) : String :=
  "\"" ++ String.join (s.data.map jsEscapeChar) ++ "\""

/-- `JSON.stringify` of an array of strings, preserving element order. -/
def jsonStringifyStrList (xs : List String) : String :=
  "[" ++ String.intercalate "," (xs.map jsonQuote) ++ "]"

/-- `JSON.stringify` of an object whose values are booleans, preserving
key insertion order. -/
def jsonStringifyFlagObj (fields : List (String × Bool)) : String :=
  "\x7b" ++
    String.intercalate ","
      (fields.map (fun p => jsonQuote p.1 ++ ":" ++ (if p.2 then "true" else "false"))) ++
  "\x7d"

/-! ## updateBestFriendsCount -/

/-- Transport result for `updateBestFriendsCount`. Modelled from the
spec for the success body: the body is interpreted only through
`StringUtils.tryParseJSON` (`src/lib/string-utils` is not under `src/`),
so a transport-successful response is represented by its JSON parse
result, `none` when the body is not valid JSON. -/
inductive BFResponse where
  | failure (e : String)
  | success (parsedBody : Option Json)
deriving Repr

/-- Outcome reported to the caller's callback by
`updateBestFriendsCount`: the transport error verbatim, the module's own
parse-error string, or success (`cb(null)`). -/
inductive BFOutcome where
  | transportFailure (e : String)
  | parseFailure (msg : String)
  | ok
deriving Repr, DecidableEq

/-- The failure kind of a `BFOutcome`, used to state that the parse
failure is distinct from the transport failure kind. -/
inductive BFKind where
  | transport
  | parse
  | success
deriving Repr, DecidableEq

/-- Kind classifier for `BFOutcome`. -/
def BFOutcome.kind : BFOutcome → BFKind
  | .transportFailure _ => .transport
  | .parseFailure _ => .parse
  | .ok => .success

/-- The parse-error string the source reports. -/
def bfParseErrorMessage : String :=
  "Snapchat.Account.updateBestFriendsCount parse error"

/-- `Account.prototype.updateBestFriendsCount` (account.js lines 29-53):
clamps the count into `[3,7]`, posts it with the username, and on
transport success runs `tryParseJSON` on the body; a truthy parse result
sets `currentSession.bestFriendUsernames` to the body's `best_friends`
property and reports success, anything else reports the parse-error
string. Returns the issued post, the callback outcome and the resulting
session. -/
def updateBestFriendsCount (s : Session) (number : Int) (resp : BFResponse) :
    PostCall × BFOutcome × Session :=
  let n1 : Int := if number < 3 then 3 else number
  let n2 : Int := if n1 > 7 then 7 else n1
  let call : PostCall :=
    ⟨epSetBestsCount,
      [("num_best_friends", .int (toInt32 n2)),
       ("username", .str s.username)]⟩
  match resp with
  | .failure e => (call, .transportFailure e, s)
  | .success parsed =>
    match parsed with
    | some j =>
      if j.truthy then
        (call, .ok, { s with bestFriendUsernames := j.lookupField "best_friends" })
      else
        (call, .parseFailure bfParseErrorMessage, s)
    | none => (call, .parseFailure bfParseErrorMessage, s)

/-! ## updateSnapPrivacy and the single-field setters

These operations hand the caller's callback directly to `client.post`,
so the callback outcome is the transport outcome verbatim; the outcome
type is an arbitrary type parameter `ρ` passed through unchanged. -/

/-- `Account.prototype.updateSnapPrivacy` (account.js lines 61-72):
`privacy = Math.min(privacy, 1) | 0`, then posts
`action=updatePrivacy`. -/
def updateSnapPrivacy (ρ : Type) (s : Session) (privacy : Int) (resp : ρ) :
    PostCall × ρ × Session :=
  (⟨epSettings,
    [("action", .str "updatePrivacy"),
     ("privacySetting", .int (toInt32 (min privacy 1))),
     ("username", .str s.username)]⟩, resp, s)

/-- `Account.prototype.updateEmail` (account.js lines 109-118). -/
def updateEmail (ρ : Type) (s : Session) (address : String) (resp : ρ) :
    PostCall × ρ × Session :=
  (⟨epSettings,
    [("action", .str "updateEmail"),
     ("email", .str address),
     ("username", .str s.username)]⟩, resp, s)

/-- `Account.prototype.updateSearchableByNumber` (account.js lines
126-135): sends `!!searchable`, the input coerced to a strict boolean. -/
def updateSearchableByNumber (ρ : Type) (s : Session) (searchable : Json) (resp : ρ) :
    PostCall × ρ × Session :=
  (⟨epSettings,
    [("action", .str "updateSearchableByPhoneNumber"),
     ("searchable", .bool searchable.truthy),
     ("username", .str s.username)]⟩, resp, s)

/-- `Account.prototype.updateNotificationSoundSetting` (account.js lines
143-152): sends `enableSound ? 'ON' : 'OFF'`. -/
def updateNotificationSoundSetting (ρ : Type) (s : Session) (enableSound : Json) (resp : ρ) :
    PostCall × ρ × Session :=
  (⟨epSettings,
    [("action", .str "updateNotificationSoundSetting"),
     ("notificationSoundSetting", .str (if enableSound.truthy then "ON" else "OFF")),
     ("username", .str s.username)]⟩, resp, s)

/-- `Account.prototype.updateTOSAgreementStatus` (account.js lines
262-276): the three inputs each mapped to the literal strings
`'true'`/`'false'` inside a structured `agreements` sub-mapping. -/
def updateTOSAgreementStatus (ρ : Type) (s : Session)
    (snapcash snapcashV2 square : Json) (resp : ρ) :
    PostCall × ρ × Session :=
  (⟨epUpdateUser,
    [("username", .str s.username),
     ("agreements", .obj
       [("snapcash_new_tos_accepted", .str (if snapcash.truthy then "true" else "false")),
        ("snapcash_tos_v2_accepted", .str (if snapcashV2.truthy then "true" else "false")),
        ("square_tos_accepted", .str (if square.truthy then "true" else "false"))])]⟩,
   resp, s)

/-! ## updateStoryPrivacy -/

/-- The second JavaScript argument of `updateStoryPrivacy`: a block list
of usernames, `null`/omitted, or (in the two-argument calling
convention) the completion callback itself, drawn from an arbitrary
callback type `κ`. -/
inductive FriendsArg (κ : Type) where
  | list (xs : List String)
  | nullv
  | fn (f : κ)

/-- `Account.prototype.updateStoryPrivacy` (account.js lines 81-101):
if the second argument is a function it becomes the callback and
`friends` becomes `null`; the privacy level is coerced with `| 0` and
mapped to its string label by `constants.stringFromStoryPrivacy`
(modelled from the spec as an arbitrary label mapping `lbl`, since
`src/lib/constants` is not under `src/`); a truthy `friends` value (any
array, even empty) is serialized with `JSON.stringify` into the
`storyFriendsToBlock` parameter, otherwise that parameter is absent.
Returns the issued post and the callback that receives the verbatim
transport outcome. -/
def updateStoryPrivacy (κ : Type) (lbl : Int → String) (s : Session)
    (privacy : Int) (arg2 : FriendsArg κ) (arg3 : κ) : PostCall × κ :=
  let fc : Option (List String) × κ :=
    match arg2 with
    | .fn f => (none, f)
    | .list xs => (some xs, arg3)
    | .nullv => (none, arg3)
  let base : List (String × PVal) :=
    [("action", .str "updateStoryPrivacy"),
     ("privacySetting", .str (lbl (toInt32 privacy))),
     ("username", .str s.username)]
  let ps : List (String × PVal) :=
    match fc.1 with
    | some xs => base ++ [("storyFriendsToBlock", .str (jsonStringifyStrList xs))]
    | none => base
  (⟨epSettings, ps⟩, fc.2)

/-! ## updateFeatureSettings -/

/-- The merged `features` object built by
`Account.prototype.updateFeatureSettings` (account.js lines 181-189):
one entry per recognized name, in source order, each the JavaScript
`settings[name] || currentSession.<flag>`. The request is modelled as a
partial map from names to booleans (`none` models an absent key). -/
def mergedFeatures (s : Session) (settings : String → Option Bool) :
    List (String × Bool) :=
  [(fsFrontFacingFlash, jsOr (settings fsFrontFacingFlash) s.enableFrontFacingFlash),
   (fsReplaySnaps, jsOr (settings fsReplaySnaps) s.enableReplaySnaps),
   (fsSmartFilters, jsOr (settings fsSmartFilters) s.enableSmartFilters),
   (fsVisualFilters, jsOr (settings fsVisualFilters) s.enableVisualFilters),
   (fsPowerSaveMode, jsOr (settings fsPowerSaveMode) s.enablePowerSaveMode),
   (fsSpecialText, jsOr (settings fsSpecialText) s.enableSpecialText),
   (fsSwipeCashMode, jsOr (settings fsSwipeCashMode) s.enableSwipeCashMode),
   (fsTravelMode, jsOr (settings fsTravelMode) s.enableTravelMode)]

/-- `Account.prototype.updateFeatureSettings` (account.js lines
177-195): posts the JSON-serialized merged features alongside the
username; the callback goes straight to `client.post`, so the outcome is
the transport outcome verbatim and the session is not mutated. -/
def updateFeatureSettings (ρ : Type) (s : Session)
    (settings : String → Option Bool) (resp : ρ) : PostCall × ρ × Session :=
  (⟨epFeatureSettings,
    [("settings", .str (jsonStringifyFlagObj (mergedFeatures s settings))),
     ("username", .str s.username)]⟩, resp, s)

/-! ## Blob downloads and uploadAvatar -/

/-- Modelled from the spec: `SKBlob` (`src/models/blob` is not under
`src/`) is an immutable binary payload plus a marker of whether it has
passed through the decode/decompress step. `new SKBlob(buffer)` wraps
raw bytes with the marker unset. -/
structure SKBlob where
  data : List Nat
  decoded : Bool
deriving Repr, DecidableEq

/-- Transport result for the two download operations: a transport
failure or the raw binary response body. -/
inductive DlResponse where
  | failure (e : String)
  | success (body : List Nat)
deriving Repr, DecidableEq

/-- Outcome reported to the caller's callback by a download operation. -/
inductive DlOutcome where
  | transportFailure (e : String)
  | blob (b : SKBlob)
  | decodeFailure (e : String)
deriving Repr, DecidableEq

/-- `Account.prototype.downloadSnaptag` (account.js lines 202-217):
posts the cached QR path with `type='SVG'`; on success wraps the raw
body in `new SKBlob(new Buffer(body))` — no decode step. -/
def downloadSnaptag (s : Session) (resp : DlResponse) : PostCall × DlOutcome :=
  let call : PostCall :=
    ⟨epSnaptag,
      [("image", .str s.QRPath),
       ("type", .str "SVG"),
       ("username", .str s.username)]⟩
  match resp with
  | .failure e => (call, .transportFailure e)
  | .success body => (call, .blob ⟨body, false⟩)

/-- `Account.prototype.downloadAvatar` (account.js lines 240-255): posts
the target username with `size='MEDIUM'`; on success hands the raw body
to `SKBlob.decompress`, modelled from the spec as an arbitrary codec
`codec` mapping the raw bytes to the callback outcome (a decoded blob or
a decode failure). -/
def downloadAvatar (codec : List Nat → DlOutcome) (s : Session)
    (username : String) (resp : DlResponse) : PostCall × DlOutcome :=
  let call : PostCall :=
    ⟨epAvatarGet,
      [("username_image", .str username),
       ("username", .str s.username),
       ("size", .str "MEDIUM")]⟩
  match resp with
  | .failure e => (call, .transportFailure e)
  | .success body => (call, codec body)

/-- How `Account.prototype.uploadAvatar` (account.js lines 225-232)
completes: through the callback channel with some result, or by raising
a synchronous JavaScript exception that escapes the caller's control
flow. -/
inductive UploadOutcome (ρ : Type) where
  | cb (r : ρ)
  | thrownError (msg : String)
deriving Repr, DecidableEq

/-- `Account.prototype.uploadAvatar` (account.js lines 225-232): issues
no post and synchronously executes `throw new Error("Account.uploadAvatar
TODO")`. Returns the list of posts issued and how it completed. -/
def uploadAvatar (ρ : Type) (_images : List (List Nat)) :
    List PostCall × UploadOutcome ρ :=
  ([], .thrownError "Account.uploadAvatar TODO")

/-! ## Concrete values used to instantiate the theorems -/

/-- A concrete session used to instantiate theorems on concrete inputs. -/
def demoSession : Session :=
  { username := "alice_u"
    bestFriendUsernames := some (.arr [.str "old"])
    enableFrontFacingFlash := false
    enableReplaySnaps := true
    enableSmartFilters := false
    enableVisualFilters := true
    enablePowerSaveMode := false
    enableSpecialText := true
    enableSwipeCashMode := false
    enableTravelMode := true
    QRPath := "qr/alice.svg" }

/-- A concrete feature-settings request: explicitly requests travel mode
off (which is cached on in `demoSession`) and carries an unrecognized
key. -/
def demoSettings : String → Option Bool := fun k =>
  if k = fsTravelMode then some false
  else if k = "bogus_key" then some true
  else none

/-- The same request as `demoSettings` but without the unrecognized
key. -/
def demoSettingsClean : String → Option Bool := fun k =>
  if k = fsTravelMode then some false else none

/-! ## Helper lemmas -/

/-- `x | 0` is the identity on integers already in the signed 32-bit
range. -/
theorem toInt32_eq_self {n : Int} (h1 : -2147483648 ≤ n) (h2 : n < 2147483648) :
    toInt32 n = n := by
  unfold toInt32
  omega

/-- The request sent by `updateBestFriendsCount` is the same in every
response branch. -/
theorem updateBestFriendsCount_call (s : Session) (number : Int) (resp : BFResponse) :
    (updateBestFriendsCount s number resp).1 =
      ⟨epSetBestsCount,
        [("num_best_friends",
           .int (toInt32 (if (if number < 3 then 3 else number) > 7 then 7
                          else if number < 3 then 3 else number))),
         ("username", .str s.username)]⟩ := by
  cases resp with
  | failure e => rfl
  | success parsed =>
    cases parsed with
    | none => rfl
    | some j =>
      unfold updateBestFriendsCount
      by_cases hj : j.truthy <;> simp [hj]

/-! ## Claim theorems -/

/-- Claim C4: for every integer `n`, `updateBestFriendsCount n` sends
`num_best_friends` equal to `3` when `n < 3`, `7` when `n > 7`, and `n`
itself when `n` lies in `[3,7]`, the result being an integer. -/
theorem c4_bestFriendsCount_clamped (s : Session) (resp : BFResponse) (n : Int) :
    (updateBestFriendsCount s n resp).1.params.lookup "num_best_friends" =
      some (.int (if n < 3 then 3 else if n > 7 then 7 else n)) := by
  rw [updateBestFriendsCount_call]
  have hsent : toInt32 (if (if n < 3 then 3 else n) > 7 then 7 else if n < 3 then 3 else n)
      = (if n < 3 then 3 else if n > 7 then 7 else n) := by
    unfold toInt32
    split_ifs <;> omega
  simp [List.lookup, hsent]

/-- The `privacySetting` parameter sent by `updateSnapPrivacy`. -/
theorem updateSnapPrivacy_sent (ρ : Type) (s : Session) (lvl : Int) (resp : ρ) :
    (updateSnapPrivacy ρ s lvl resp).1.params.lookup "privacySetting" =
      some (.int (toInt32 (min lvl 1))) := by
  simp [updateSnapPrivacy, List.lookup]

/-- Claim C5: `updateSnapPrivacy lvl` sends `privacySetting = min(lvl, 1)`
coerced to an integer, with no lower clamp; in particular level 5 is sent
as 1 and level -3 is sent as -3. The lower bound keeps the input inside
the signed 32-bit range where the `| 0` coercion is the identity. -/
theorem c5_snapPrivacy_min (ρ : Type) (s : Session) (resp : ρ) (lvl : Int)
    (h1 : -2147483648 ≤ lvl) :
    ((updateSnapPrivacy ρ s lvl resp).1.params.lookup "privacySetting"
        = some (.int (toInt32 (min lvl 1))))
    ∧ (lvl ≤ 1 →
        (updateSnapPrivacy ρ s lvl resp).1.params.lookup "privacySetting"
          = some (.int lvl))
    ∧ (1 ≤ lvl →
        (updateSnapPrivacy ρ s lvl resp).1.params.lookup "privacySetting"
          = some (.int 1))
    ∧ (updateSnapPrivacy ρ s 5 resp).1.params.lookup "privacySetting" = some (.int 1)
    ∧ (updateSnapPrivacy ρ s (-3) resp).1.params.lookup "privacySetting"
        = some (.int (-3)) := by
  refine ⟨updateSnapPrivacy_sent ρ s lvl resp, ?_, ?_, ?_, ?_⟩
  · intro h
    rw [updateSnapPrivacy_sent, min_eq_left h, toInt32_eq_self h1 (by omega)]
  · intro h
    rw [updateSnapPrivacy_sent, min_eq_right h]
    norm_num [toInt32]
  · rw [updateSnapPrivacy_sent]
    norm_num [toInt32]
  · rw [updateSnapPrivacy_sent]
    have hm : min (-3 : Int) 1 = -3 := by norm_num
    rw [hm, toInt32_eq_self (by norm_num) (by norm_num)]

/-- Claim C5 witness: instantiated at level -3 with a concrete session,
discharging the range hypothesis. -/
theorem c5_witness :
    (updateSnapPrivacy Unit demoSession (-3) ()).1.params.lookup "privacySetting"
      = some (.int (-3)) :=
  (c5_snapPrivacy_min Unit demoSession () (-3) (by norm_num)).2.1 (by norm_num)

/-- Claim C3, counterexample: a transport-successful response whose body
parses as JSON to the object with no fields (the body text would be the
two-character object literal); it lacks the best-friends field, yet the
operation reports success (`cb(null)`), not a parse failure — the source
only checks the truthiness of the parse result, never the field. -/
theorem c3_counterexample :
    (updateBestFriendsCount demoSession 5 (.success (some (.obj [])))).2.1
      = BFOutcome.ok := rfl

/-- Claim C3, amended: when the body fails to parse as JSON (the
`tryParseJSON` result is falsy), `updateBestFriendsCount` reports the
module's parse-failure string, whose kind is distinct from the transport
failure kind; but when the parse result is truthy — any object, even one
lacking the best-friends field — the operation reports success. -/
theorem c3_parse_failure_amended (s : Session) (n : Int) (parsed : Option Json) :
    (jsTruthyOpt parsed = false →
      (updateBestFriendsCount s n (.success parsed)).2.1
          = BFOutcome.parseFailure bfParseErrorMessage
      ∧ ((updateBestFriendsCount s n (.success parsed)).2.1).kind = BFKind.parse
      ∧ BFKind.parse ≠ BFKind.transport)
    ∧ (jsTruthyOpt parsed = true →
      (updateBestFriendsCount s n (.success parsed)).2.1 = BFOutcome.ok) := by
  constructor
  · intro h
    cases parsed with
    | none => exact ⟨rfl, rfl, by decide⟩
    | some j =>
      have hj : j.truthy = false := h
      unfold updateBestFriendsCount
      simp [hj, BFOutcome.kind]
  · intro h
    cases parsed with
    | none => exact absurd h (by simp [jsTruthyOpt])
    | some j =>
      have hj : j.truthy = true := h
      unfold updateBestFriendsCount
      simp [hj]

/-- Claim C3 witness: a transport-successful call whose body is not valid
JSON reports the parse-failure string. -/
theorem c3_witness :
    jsTruthyOpt none = false
    ∧ (updateBestFriendsCount demoSession 4 (.success none)).2.1
        = BFOutcome.parseFailure bfParseErrorMessage :=
  ⟨rfl, ((c3_parse_failure_amended demoSession 4 none).1 rfl).1⟩

/-- Claim C6: on a transport-successful call whose body parses to an
object carrying a best-friends field, the session's
`bestFriendUsernames` is replaced with exactly the server-returned value
(independently of the clamped input count `n`) and the outcome is
success; on a malformed body (one that does not parse as JSON) the
outcome is the parse failure and the session is unchanged. -/
theorem c6_bestFriends_cache (s : Session) (n : Int) (fs : List (String × Json))
    (v : Json) (hfield : Json.lookupField (.obj fs) "best_friends" = some v) :
    ((updateBestFriendsCount s n (.success (some (.obj fs)))).2.2.bestFriendUsernames
        = some v
     ∧ (updateBestFriendsCount s n (.success (some (.obj fs)))).2.1 = BFOutcome.ok)
    ∧ ((updateBestFriendsCount s n (.success none)).2.1
        = BFOutcome.parseFailure bfParseErrorMessage
       ∧ (updateBestFriendsCount s n (.success none)).2.2 = s) := by
  refine ⟨⟨?_, ?_⟩, rfl, rfl⟩
  · unfold updateBestFriendsCount
    simp [Json.truthy, hfield]
  · unfold updateBestFriendsCount
    simp [Json.truthy]

/-- Claim C6 witness: a body carrying `best_friends = ["x","y","z"]`
replaces the cache with exactly that list, even though the requested
count 9 was clamped to 7. -/
theorem c6_witness :
    (updateBestFriendsCount demoSession 9
        (.success (some (.obj
          [("best_friends", .arr [.str "x", .str "y", .str "z"])])))).2.2.bestFriendUsernames
      = some (.arr [.str "x", .str "y", .str "z"]) :=
  ((c6_bestFriends_cache demoSession 9
      [("best_friends", .arr [.str "x", .str "y", .str "z"])]
      (.arr [.str "x", .str "y", .str "z"]) rfl).1).1

/-- Claim C7: on transport success `downloadSnaptag` returns a blob whose
bytes are exactly the raw response body with the decode marker unset (no
decode/decompress step), while `downloadAvatar` always hands the raw body
to the `SKBlob.decompress` codec and returns whatever the codec
produces. -/
theorem c7_download_decode_paths (s : Session) (codec : List Nat → DlOutcome)
    (uname : String) (body : List Nat) :
    (downloadSnaptag s (.success body)).2 = DlOutcome.blob ⟨body, false⟩
    ∧ (downloadAvatar codec s uname (.success body)).2 = codec body :=
  ⟨rfl, rfl⟩

/-- Claim C8: a supplied block list is serialized by `JSON.stringify`
into the `storyFriendsToBlock` parameter, preserving the given order of
usernames (the two orderings of the example produce the two
corresponding JSON texts); with no block list supplied the outgoing
parameter mapping consists of exactly the other three parameters. -/
theorem c8_storyPrivacy_blockList (κ : Type) (lbl : Int → String) (s : Session)
    (lvl : Int) (xs : List String) (k : κ) :
    ((updateStoryPrivacy κ lbl s lvl (.list xs) k).1.params.lookup "storyFriendsToBlock"
        = some (.str (jsonStringifyStrList xs)))
    ∧ jsonStringifyStrList ["alice", "bob"] = "[\"alice\",\"bob\"]"
    ∧ jsonStringifyStrList ["bob", "alice"] = "[\"bob\",\"alice\"]"
    ∧ (updateStoryPrivacy κ lbl s lvl .nullv k).1.params
        = [("action", .str "updateStoryPrivacy"),
           ("privacySetting", .str (lbl (toInt32 lvl))),
           ("username", .str s.username)] := by
  refine ⟨?_, rfl, rfl, rfl⟩
  simp [updateStoryPrivacy, List.lookup]

/-- Claim C9: the four single-field setters hand the caller's callback
straight to the transport (outcome reported verbatim) and leave the
session untouched; `updateEmail` sends the address as-is,
`updateSearchableByNumber` sends its input coerced to a strict boolean,
`updateNotificationSoundSetting` maps truthy to "ON" and falsy to "OFF",
and `updateTOSAgreementStatus` maps its three inputs to the literal
strings "true"/"false" inside the `agreements` sub-mapping. -/
theorem c9_single_field_setters (ρ : Type) (resp : ρ) (s : Session)
    (addr : String) (searchable sound a b c : Json) :
    ((updateEmail ρ s addr resp).2.1 = resp
     ∧ (updateEmail ρ s addr resp).2.2 = s
     ∧ (updateEmail ρ s addr resp).1.params.lookup "email" = some (.str addr))
    ∧ ((updateSearchableByNumber ρ s searchable resp).2.1 = resp
       ∧ (updateSearchableByNumber ρ s searchable resp).2.2 = s
       ∧ (updateSearchableByNumber ρ s searchable resp).1.params.lookup "searchable"
           = some (.bool searchable.truthy))
    ∧ ((updateNotificationSoundSetting ρ s sound resp).2.1 = resp
       ∧ (updateNotificationSoundSetting ρ s sound resp).2.2 = s
       ∧ (updateNotificationSoundSetting ρ s sound resp).1.params.lookup
             "notificationSoundSetting"
           = some (.str (if sound.truthy then "ON" else "OFF")))
    ∧ ((updateTOSAgreementStatus ρ s a b c resp).2.1 = resp
       ∧ (updateTOSAgreementStatus ρ s a b c resp).2.2 = s
       ∧ (updateTOSAgreementStatus ρ s a b c resp).1.params.lookup "agreements"
           = some (.obj
               [("snapcash_new_tos_accepted",
                  .str (if a.truthy then "true" else "false")),
                ("snapcash_tos_v2_accepted",
                  .str (if b.truthy then "true" else "false")),
                ("square_tos_accepted",
                  .str (if c.truthy then "true" else "false"))])) := by
  refine ⟨⟨rfl, rfl, ?_⟩, ⟨rfl, rfl, ?_⟩, ⟨rfl, rfl, ?_⟩, ⟨rfl, rfl, ?_⟩⟩
  · simp [updateEmail, List.lookup]
  · simp [updateSearchableByNumber, List.lookup]
  · simp [updateNotificationSoundSetting, List.lookup]
  · simp [updateTOSAgreementStatus, List.lookup]

/-- Claim C10: calling `updateStoryPrivacy` with a function as its second
argument is identical to the three-argument call with a null block list
and that function as the callback — the function becomes the completion
callback, no `storyFriendsToBlock` parameter is sent, and the privacy
level is `| 0`-coerced before being mapped to its string label. -/
theorem c10_storyPrivacy_function_arg (κ : Type) (lbl : Int → String) (s : Session)
    (lvl : Int) (f d : κ) :
    updateStoryPrivacy κ lbl s lvl (.fn f) d = updateStoryPrivacy κ lbl s lvl .nullv f
    ∧ (updateStoryPrivacy κ lbl s lvl (.fn f) d).2 = f
    ∧ (updateStoryPrivacy κ lbl s lvl (.fn f) d).1.params.lookup "storyFriendsToBlock"
        = none
    ∧ (updateStoryPrivacy κ lbl s lvl (.fn f) d).1.params.lookup "privacySetting"
        = some (.str (lbl (toInt32 lvl))) := by
  refine ⟨rfl, rfl, ?_, ?_⟩ <;> simp [updateStoryPrivacy, List.lookup]

/-- Claim C2, evaluation at a failing input: `uploadAvatar` issues zero
transport posts but completes by raising a synchronous exception instead
of reporting NotImplemented through the callback channel. -/
theorem c2_uploadAvatar_throws_eval :
    uploadAvatar Unit [[1, 2], [3], [4], [5], [6]]
      = ([], UploadOutcome.thrownError "Account.uploadAvatar TODO")
    ∧ (uploadAvatar Unit [[1, 2], [3], [4], [5], [6]]).1.length = 0 :=
  ⟨rfl, rfl⟩

/-- Claim C1: the merged feature payload contains exactly the 8
recognized flag names (which are pairwise distinct), in source order;
each outgoing value is the JavaScript OR of the requested value and the
cached session value; the serialized payload is the JSON text of that
merged object; two requests agreeing on the 8 recognized names produce
identical outgoing requests (unknown keys are ignored); and a flag
cached as true is sent as true even when explicitly requested false. -/
theorem c1_featureSettings_merge (ρ : Type) (resp : ρ) (s : Session)
    (settings settings2 : String → Option Bool)
    (hagree : ∀ k ∈ featureNames, settings k = settings2 k) :
    ((mergedFeatures s settings).map Prod.fst = featureNames
      ∧ featureNames.length = 8 ∧ featureNames.Nodup)
    ∧ (∀ name ∈ featureNames,
        (mergedFeatures s settings).lookup name
          = some (jsOr (settings name) (sessionFlag s name)))
    ∧ ((updateFeatureSettings ρ s settings resp).1.params.lookup "settings"
        = some (.str (jsonStringifyFlagObj (mergedFeatures s settings))))
    ∧ updateFeatureSettings ρ s settings resp = updateFeatureSettings ρ s settings2 resp
    ∧ (settings fsTravelMode = some false → s.enableTravelMode = true →
        (mergedFeatures s settings).lookup fsTravelMode = some true) := by
  refine ⟨⟨rfl, by decide, by decide⟩, ?_, ?_, ?_, ?_⟩
  · intro name hname
    simp only [featureNames, List.mem_cons, List.not_mem_nil, or_false] at hname
    rcases hname with rfl | rfl | rfl | rfl | rfl | rfl | rfl | rfl <;>
      simp [mergedFeatures, sessionFlag, List.lookup, fsFrontFacingFlash,
        fsReplaySnaps, fsSmartFilters, fsVisualFilters, fsPowerSaveMode,
        fsSpecialText, fsSwipeCashMode, fsTravelMode]
  · simp [updateFeatureSettings, List.lookup]
  · have e1 := hagree fsFrontFacingFlash (by simp [featureNames])
    have e2 := hagree fsReplaySnaps (by simp [featureNames])
    have e3 := hagree fsSmartFilters (by simp [featureNames])
    have e4 := hagree fsVisualFilters (by simp [featureNames])
    have e5 := hagree fsPowerSaveMode (by simp [featureNames])
    have e6 := hagree fsSpecialText (by simp [featureNames])
    have e7 := hagree fsSwipeCashMode (by simp [featureNames])
    have e8 := hagree fsTravelMode (by simp [featureNames])
    simp [updateFeatureSettings, mergedFeatures, e1, e2, e3, e4, e5, e6, e7, e8]
  · intro h1 h2
    simp only [fsTravelMode] at h1
    simp [mergedFeatures, List.lookup, fsFrontFacingFlash, fsReplaySnaps,
      fsSmartFilters, fsVisualFilters, fsPowerSaveMode, fsSpecialText,
      fsSwipeCashMode, fsTravelMode, h1, h2, jsOr]

/-- Claim C1 witness: with travel mode cached on and a request that
explicitly turns it off (alongside an unrecognized key), the outgoing
value for travel mode is still true, and dropping the unrecognized key
leaves the outgoing request identical. -/
theorem c1_witness :
    (mergedFeatures demoSession demoSettings).lookup fsTravelMode = some true
    ∧ updateFeatureSettings Unit demoSession demoSettings ()
        = updateFeatureSettings Unit demoSession demoSettingsClean () := by
  have h := c1_featureSettings_merge Unit () demoSession demoSettings
    demoSettingsClean (by decide)
  exact ⟨h.2.2.2.2 (by decide) rfl, h.2.2.2.1⟩

end Snapchat
